import Mathlib

/-!
Shallow embedding of the Gemini live WebSocket protocol client
(`js/ws/client.js`) and the event emitter (`js/utils/event-emitter.js`).
Pure state is made explicit; transport writes, emitted events and console
warnings are collected as effects; thrown errors are returned as values.
-/

namespace Gemini

/-- JS truthiness of a string-valued field: `undefined`/`null` and the empty
string are falsy, every other string is truthy. -/
def strTruthy : Option String → Bool
  | none => false
  | some s => s ≠ ""

/-- Prefix test on character lists (model of `String.prototype.startsWith`
and the anchored part of substring search). -/
def listStartsWith : List Char → List Char → Bool
  | [], _ => true
  | _ :: _, [] => false
  | n :: ns, h :: hs => (n = h) && listStartsWith ns hs

/-- Substring test on character lists: the needle occurs somewhere in the
haystack. -/
def listHasSub (needle : List Char) : List Char → Bool
  | [] => listStartsWith needle []
  | h :: hs => listStartsWith needle (h :: hs) || listHasSub needle hs

/-- Model of the regex test `/auth|token|key/i.test(reason)`: the reason,
lowercased, contains one of the three keywords. -/
def reasonHasAuthPattern (r : String) : Bool :=
  let cl := r.toList.map Char.toLower
  listHasSub "auth".toList cl || listHasSub "token".toList cl ||
    listHasSub "key".toList cl

/-- WebSocket readyState values. -/
inductive ReadyState
  | connecting
  | opened
  | closing
  | closedState
deriving DecidableEq, Repr

/-- Resolution state of the promise created by the current `connect()`
attempt (a JS promise settles at most once). -/
inductive PromiseStatus
  | notCreated
  | pending
  | resolved
  | rejected
deriving DecidableEq, Repr

/-- The mutable fields of `GeminiWebsocketClient`. `ws = none` models
`this.ws === null`; `connectionPromiseSet` models whether
`this.connectionPromise` is non-null (the field can be cleared while the
underlying promise object, tracked by `promiseStatus`, stays pending). -/
structure ClientState where
  config : String
  ws : Option ReadyState
  isConnecting : Bool
  connectionPromiseSet : Bool
  promiseStatus : PromiseStatus
  isSetupComplete : Bool
deriving DecidableEq, Repr

/-- The constructor: `new GeminiWebsocketClient(name, url, config)`. -/
def initClient (cfg : String) : ClientState :=
  { config := cfg, ws := none, isConnecting := false,
    connectionPromiseSet := false, promiseStatus := .notCreated,
    isSetupComplete := false }

/-- Body of one `functionResponses` entry: `{error: e}` or `{output: o}`. -/
inductive RespPayload
  | errResp (e : String)
  | outResp (o : String)
deriving DecidableEq, Repr

/-- One entry of `toolResponse.functionResponses`. -/
structure FunctionResponse where
  response : RespPayload
  id : String
deriving DecidableEq, Repr

/-- Outbound wire envelopes built by the send methods. -/
inductive Envelope
  | setup (config : String)
  | clientContent (text : String) (turnComplete : Bool)
  | realtimeInput (mimeType : String) (data : String)
  | toolResponse (functionResponses : List FunctionResponse)
deriving DecidableEq, Repr

/-- The `inlineData` field of a part; `data` may be absent
(`p.inlineData?.data` can be `undefined`). -/
structure InlineData where
  mimeType : String
  data : Option String
deriving DecidableEq, Repr

/-- One part of a model turn. -/
structure Part where
  text : Option String
  inlineData : Option InlineData
deriving DecidableEq, Repr

/-- The `serverContent` field of an inbound frame. -/
structure ServerContent where
  interrupted : Bool
  turnComplete : Bool
  modelTurn : Option (List Part)
deriving DecidableEq, Repr

/-- A decoded inbound frame, as inspected by `receive`. Payloads whose
structure the client never looks into are kept as opaque strings. -/
structure InboundMsg where
  toolCall : Option String
  setupComplete : Bool
  toolCallCancellation : Option String
  serverContent : Option ServerContent
deriving DecidableEq, Repr

/-- Events published through the emitter, with their payloads. -/
inductive EmittedEvent
  | errorEv
  | authFailedEv
  | disconnectedEv (code : Nat) (reason : String) (wasClean : Bool)
  | setupCompleteEv
  | toolCallEv (payload : String)
  | toolCallCancellationEv (payload : String)
  | interruptedEv
  | turnCompleteEv
  | textEv (t : String)
  | audioEv (bytes : List Nat)
  | contentEv (parts : List Part)
deriving DecidableEq, Repr

/-- Observable side effects of a client operation, in program order. -/
inductive Effect
  | emitted (e : EmittedEvent)
  | wsSend (env : Envelope)
  | warn
deriving DecidableEq, Repr

/-- Errors thrown by the send path, as distinct kinds. -/
inductive SendError
  | invalidToolResponseNoId
  | invalidToolResponseNoOutput
  | transportAbsent
  | transportNotOpen
deriving DecidableEq, Repr

/-- Method `sendJSON(json)`: warn-and-return before setup completes, then
the two distinct transport checks (`ws` null vs not open), then the send. -/
def sendJSON (s : ClientState) (json : Envelope) : List Effect × Option SendError :=
  if !s.isSetupComplete then ([.warn], none)
  else
    match s.ws with
    | none => ([], some .transportAbsent)
    | some rs =>
      if rs ≠ .opened then ([], some .transportNotOpen)
      else ([.wsSend json], none)

/-- Method `sendAudio(base64audio)`. -/
def sendAudio (s : ClientState) (base64audio : String) : List Effect × Option SendError :=
  if !s.isSetupComplete then ([.warn], none)
  else sendJSON s (.realtimeInput "audio/pcm" base64audio)

/-- Method `sendImage(base64image)`. -/
def sendImage (s : ClientState) (base64image : String) : List Effect × Option SendError :=
  if !s.isSetupComplete then ([.warn], none)
  else sendJSON s (.realtimeInput "image/jpeg" base64image)

/-- Method `sendText(text, endOfTurn = true)`. -/
def sendText (s : ClientState) (text : String) (endOfTurn : Bool) : List Effect × Option SendError :=
  if !s.isSetupComplete then ([.warn], none)
  else sendJSON s (.clientContent text endOfTurn)

/-- The argument object of `sendToolResponse`; `output = none` models an
`undefined` output, `error` truthiness follows JS. -/
structure ToolResponseArg where
  id : Option String
  output : Option String
  error : Option String
deriving DecidableEq, Repr

/-- Method `sendToolResponse(toolResponse)`: setup gate first, then the id
check, then error-vs-output envelope construction. -/
def sendToolResponse (s : ClientState) (tr : ToolResponseArg) : List Effect × Option SendError :=
  if !s.isSetupComplete then ([.warn], none)
  else if !(strTruthy tr.id) then ([], some .invalidToolResponseNoId)
  else
    let idv := tr.id.getD ""
    if strTruthy tr.error then
      sendJSON s (.toolResponse [⟨.errResp (tr.error.getD ""), idv⟩])
    else
      match tr.output with
      | none => ([], some .invalidToolResponseNoOutput)
      | some o => sendJSON s (.toolResponse [⟨.outResp o, idv⟩])

/-- A part counts as audio when it has `inlineData` whose mime type starts
with `audio/pcm`. -/
def isAudioPart (p : Part) : Bool :=
  match p.inlineData with
  | none => false
  | some d => listStartsWith "audio/pcm".toList d.mimeType.toList

/-- Method `receive(blob)` after JSON decoding, parameterized by the
base64 decoder `base64ToArrayBuffer` (code outside this module). Returns
the new state and the published effects in order. -/
def receive (dec : String → List Nat) (s : ClientState) (r : InboundMsg) :
    ClientState × List Effect :=
  if strTruthy r.toolCall then
    (s, [.emitted (.toolCallEv (r.toolCall.getD ""))])
  else if r.setupComplete then
    ({ s with isSetupComplete := true }, [.emitted .setupCompleteEv])
  else if strTruthy r.toolCallCancellation then
    (s, [.emitted (.toolCallCancellationEv (r.toolCallCancellation.getD ""))])
  else
    match r.serverContent with
    | some sc =>
      if sc.interrupted then (s, [.emitted .interruptedEv])
      else
        let turnEvs : List Effect :=
          if sc.turnComplete then [.emitted .turnCompleteEv] else []
        match sc.modelTurn with
        | none => (s, turnEvs)
        | some parts =>
          let textParts := parts.filter (fun p => strTruthy p.text)
          let textEvs : List Effect :=
            textParts.map (fun p => .emitted (.textEv (p.text.getD "")))
          let audioParts := parts.filter isAudioPart
          let base64s := audioParts.map (fun p => p.inlineData.bind (fun d => d.data))
          let otherParts := parts.filter (fun p => !isAudioPart p)
          let audioEvs : List Effect :=
            base64s.filterMap (fun b64 =>
              match b64 with
              | some b => if b ≠ "" then some (.emitted (.audioEv (dec b))) else none
              | none => none)
          let contentEvs : List Effect :=
            if otherParts.length ≠ 0 then [.emitted (.contentEv otherParts)] else []
          (s, turnEvs ++ textEvs ++ audioEvs ++ contentEvs)
    | none => (s, [])

/-- Method `disconnect()`: tears down only when `this.ws` is non-null; note
that it clears the `connectionPromise` field but never settles the promise
object, and never touches `isSetupComplete`. -/
def disconnect (s : ClientState) : ClientState :=
  match s.ws with
  | none => s
  | some _ =>
    { s with ws := none, isConnecting := false, connectionPromiseSet := false }

/-- Settle the attempt's promise; a promise resolves or rejects at most
once, so only a pending promise changes status. -/
def settle (s : ClientState) (st : PromiseStatus) : ClientState :=
  if s.promiseStatus = .pending then { s with promiseStatus := st } else s

/-- Synchronous outcome of a `connect()` call. -/
inductive ConnectOutcome
  | returnedExisting
  | rejectedNoKey
  | rejectedBadUrl
  | attemptStarted
deriving DecidableEq, Repr

/-- Method `connect()` up to its suspension: the idempotency checks, the
API-key and URL validations, and the creation of the pending promise with
`isConnecting = true`. The transport callbacks are modeled separately. -/
def connect (s : ClientState) (apiKey : Option String) (urlOk : Bool) :
    ClientState × List Effect × ConnectOutcome :=
  if s.ws = some .opened then (s, [], .returnedExisting)
  else if s.isConnecting then (s, [], .returnedExisting)
  else if !(strTruthy apiKey) then (s, [.emitted .errorEv], .rejectedNoKey)
  else if !urlOk then (s, [.emitted .errorEv], .rejectedBadUrl)
  else
    ({ s with isConnecting := true, connectionPromiseSet := true,
              promiseStatus := .pending }, [], .attemptStarted)

/-- The `open` listener: store the socket, clear `isConnecting`, call
`sendJSON({setup: this.config})`, then `resolve()`. -/
def handleOpen (s : ClientState) : ClientState × List Effect :=
  let s1 := { s with ws := some .opened, isConnecting := false }
  let sendRes := sendJSON s1 (.setup s1.config)
  (settle s1 .resolved, sendRes.1)

/-- The `error` listener: `disconnect`, emit `error`, `reject`. -/
def handleError (s : ClientState) : ClientState × List Effect :=
  let s1 := disconnect s
  (settle s1 .rejected, [.emitted .errorEv])

/-- Close classification: auth failure iff the code is 4001, 4003 or 1008,
or the (truthy) reason matches `/auth|token|key/i`. -/
def authFailureClose (code : Nat) (reason : String) : Bool :=
  (code = 4001 || code = 4003 || code = 1008) ||
    (reason ≠ "" && reasonHasAuthPattern reason)

/-- The `close` listener: `disconnect`, classify, emit `auth_failed` and
`error` or else `disconnected`, and reject the promise if the attempt was
still connecting. -/
def handleClose (s : ClientState) (code : Nat) (reason : String) (wasClean : Bool) :
    ClientState × List Effect :=
  let s1 := disconnect s
  let evs : List Effect :=
    if authFailureClose code reason then
      [.emitted .authFailedEv, .emitted .errorEv]
    else
      [.emitted (.disconnectedEv code reason wasClean)]
  let s2 := if s1.isConnecting then settle { s1 with isConnecting := false } .rejected else s1
  (s2, evs)

/-- One call on the public send surface. -/
inductive SendOp
  | textOp (t : String) (endOfTurn : Bool)
  | audioChunk (b64 : String)
  | imageFrame (b64 : String)
  | toolResult (tr : ToolResponseArg)
deriving DecidableEq, Repr

/-- Dispatch one send call to its method. -/
def execSend (s : ClientState) : SendOp → List Effect × Option SendError
  | .textOp t eot => sendText s t eot
  | .audioChunk b64 => sendAudio s b64
  | .imageFrame b64 => sendImage s b64
  | .toolResult tr => sendToolResponse s tr

/-- Effects of a whole sequence of send calls (none of the four methods
mutates client state, so the state is shared). -/
def runSends (s : ClientState) : List SendOp → List Effect
  | [] => []
  | op :: ops => (execSend s op).1 ++ runSends s ops

/-- State right after a first `connect()` call started an attempt: the
promise is pending, `isConnecting` is true and `this.ws` is still null. -/
def pendingAfterConnect : ClientState :=
  (connect (initClient "cfg") (some "k") true).1

/-- A text part. -/
def pText (t : String) : Part := ⟨some t, none⟩

/-- An audio part with the given mime type and base64 payload. -/
def pAudio (mime b64 : String) : Part := ⟨none, some ⟨mime, some b64⟩⟩

/-- An inbound frame whose only content is a model turn with the given
parts. -/
def mkModelTurnMsg (parts : List Part) : InboundMsg :=
  { toolCall := none, setupComplete := false, toolCallCancellation := none,
    serverContent := some { interrupted := false, turnComplete := false,
                            modelTurn := some parts } }

/-- The `SetupComplete` inbound frame (`{setupComplete: true}`). -/
def scMsg : InboundMsg :=
  { toolCall := none, setupComplete := true, toolCallCancellation := none,
    serverContent := none }

/-- A trivial stand-in decoder for concrete evaluations. -/
def decZero : String → List Nat := fun _ => []

/-- Concrete audio part used in counterexamples. -/
def cexAudioPart : Part := pAudio "audio/pcm;rate=24000" "QUJD"

/-- Concrete non-text non-audio part used in counterexamples. -/
def cexOtherPart : Part := ⟨none, some ⟨"image/jpeg", some "Zm9v"⟩⟩

/-- Counterexample frame: model turn `[Text "a", Audio x, Text "b", Other y]`. -/
def cexMsg : InboundMsg :=
  mkModelTurnMsg [pText "a", cexAudioPart, pText "b", cexOtherPart]

/-- Tool response with an id but neither output nor error. -/
def trNoOutput : ToolResponseArg := { id := some "t1", output := none, error := none }

/-- Tool response carrying an error. -/
def trErr : ToolResponseArg := { id := some "t1", output := none, error := some "x" }

/-- Tool response carrying an output. -/
def trOut : ToolResponseArg := { id := some "t1", output := some "y", error := none }

/-- A client state whose handshake has completed and whose socket is open. -/
def readyClient : ClientState :=
  { config := "cfg", ws := some .opened, isConnecting := false,
    connectionPromiseSet := true, promiseStatus := .resolved,
    isSetupComplete := true }

/-- A client state after a completed handshake followed by `disconnect()`. -/
def readyThenDisconnected : ClientState := disconnect readyClient

/-- A part with neither text nor inline data. -/
def pEmpty : Part := ⟨none, none⟩

/-- Observable behavior of one listener during one publication: it either
returns normally or throws. -/
inductive LOutcome
  | ok
  | throws
deriving DecidableEq, Repr

/-- One registered listener, identified for invocation bookkeeping. -/
structure Listener where
  id : Nat
  outcome : LOutcome
deriving DecidableEq, Repr

/-- Lookup in the `_events` map (`this._events[event]`). -/
def listenersOf : List (String × List Listener) → String → Option (List Listener)
  | [], _ => none
  | (k, ls) :: rest, e => if k = e then some ls else listenersOf rest e

/-- Method `on(event, listener)`: create the entry if absent, then push the
listener at the end of the list. -/
def onListener (m : List (String × List Listener)) (e : String) (l : Listener) :
    List (String × List Listener) :=
  match m with
  | [] => [(e, [l])]
  | (k, ls) :: rest =>
    if k = e then (k, ls ++ [l]) :: rest else (k, ls) :: onListener rest e l

/-- Model of `forEach(listener => listener.apply(this, args))`: invoke in
list order; a throwing listener is invoked, terminates the loop, and its
exception propagates (returned as the second component). -/
def runListeners : List Listener → List Nat × Option Nat
  | [] => ([], none)
  | l :: rest =>
    match l.outcome with
    | .throws => ([l.id], some l.id)
    | .ok =>
      let r := runListeners rest
      (l.id :: r.1, r.2)

/-- Method `emit(event, ...)`: return false when no listener list exists,
otherwise run the listeners; result is (invoked ids, propagated exception,
reached-return-true). -/
def emit (m : List (String × List Listener)) (e : String) :
    List Nat × Option Nat × Bool :=
  match listenersOf m e with
  | none => ([], none, false)
  | some ls =>
    let r := runListeners ls
    (r.1, r.2, true)

/-- Listener list whose first listener throws. -/
def throwingThenOk : List Listener := [⟨0, .throws⟩, ⟨1, .ok⟩]

end Gemini


namespace Gemini

/-- Characterization of the state produced by `receive`: only a
`SetupComplete` frame (not shadowed by a tool call) changes the state, and
it only sets the handshake flag. -/
theorem receive_state_eq (dec : String → List Nat) (s : ClientState) (r : InboundMsg) :
    (receive dec s r).1 =
      if !(strTruthy r.toolCall) && r.setupComplete then
        { s with isSetupComplete := true }
      else s := by
  rcases r with ⟨tc, stc, tcc, scont⟩
  unfold receive
  cases htc : strTruthy tc <;> cases stc <;> simp [htc]
  all_goals cases htcc : strTruthy tcc <;> simp [htcc]
  all_goals rcases scont with _ | ⟨i, t, mt⟩
  all_goals simp
  all_goals cases i <;> simp
  all_goals rcases mt with _ | parts <;> simp

end Gemini

namespace Gemini

/-- C1 theorem. -/
theorem c1_setup_frame_dropped_at_open :
    pendingAfterConnect.isSetupComplete = false ∧
    (handleOpen pendingAfterConnect).2 = [Effect.warn] := by decide

/-- C2 theorem. -/
theorem c2_connect_resolves_at_open_without_setup :
    pendingAfterConnect.promiseStatus = PromiseStatus.pending ∧
    ((handleOpen pendingAfterConnect).1).promiseStatus = PromiseStatus.resolved ∧
    ((handleOpen pendingAfterConnect).1).isSetupComplete = false := by decide

/-- C3 counterexample. -/
theorem c3_content_event_retains_text_parts :
    (receive decZero (initClient "c") cexMsg).2 =
      [ Effect.emitted (.textEv "a"), Effect.emitted (.textEv "b"),
        Effect.emitted (.audioEv (decZero "QUJD")),
        Effect.emitted (.contentEv [pText "a", pText "b", cexOtherPart]) ] ∧
    [pText "a", pText "b", cexOtherPart] ≠ [cexOtherPart] := by decide

/-- C3 amended theorem. -/
theorem c3_router_partition (dec : String → List Nat) (s : ClientState)
    (m xb : String) (y : Part)
    (hm : listStartsWith "audio/pcm".toList m.toList = true) (hxb : xb ≠ "")
    (hyt : strTruthy y.text = false) (hya : isAudioPart y = false) :
    (receive dec s (mkModelTurnMsg [pText "a", pAudio m xb, pText "b", y])).2 =
      [ Effect.emitted (.textEv "a"), Effect.emitted (.textEv "b"),
        Effect.emitted (.audioEv (dec xb)),
        Effect.emitted (.contentEv [pText "a", pText "b", y]) ] := by
  rcases y with ⟨yt, yd⟩
  rcases yd with _ | d
  · rcases yt with _ | s
    · simp_all [receive, mkModelTurnMsg, pText, pAudio, strTruthy, isAudioPart]
    · have hs : s = "" := by simpa [strTruthy] using hyt
      subst hs
      simp_all [receive, mkModelTurnMsg, pText, pAudio, strTruthy, isAudioPart]
  · have hd : listStartsWith "audio/pcm".toList d.mimeType.toList = false := by
      simpa [isAudioPart] using hya
    rcases yt with _ | s
    · simp_all [receive, mkModelTurnMsg, pText, pAudio, strTruthy, isAudioPart]
    · have hs : s = "" := by simpa [strTruthy] using hyt
      subst hs
      simp_all [receive, mkModelTurnMsg, pText, pAudio, strTruthy, isAudioPart]

/-- C3 witness. -/
theorem c3_router_partition_witness :
    (receive decZero (initClient "w")
        (mkModelTurnMsg [pText "a", pAudio "audio/pcm" "zz", pText "b", pEmpty])).2 =
      [ Effect.emitted (.textEv "a"), Effect.emitted (.textEv "b"),
        Effect.emitted (.audioEv (decZero "zz")),
        Effect.emitted (.contentEv [pText "a", pText "b", pEmpty]) ] :=
  c3_router_partition decZero (initClient "w") "audio/pcm" "zz" pEmpty
    (by decide) (by decide) (by decide) (by decide)

/-- C4 counterexample. -/
theorem c4_duplicate_setup_complete_reemits :
    ((receive decZero (receive decZero (initClient "c") scMsg).1 scMsg).2
      = [Effect.emitted .setupCompleteEv]) ∧
    (receive decZero (initClient "c") scMsg).1.isSetupComplete = true := by decide

/-- C4 amended theorem: every SetupComplete frame (the first one included)
sets the handshake flag and publishes one setupComplete event; once the
flag is true it stays true under receive, and a duplicate SetupComplete
frame changes no state while still re-emitting the event. -/
theorem c4_flag_latched_duplicates_reemit (dec : String → List Nat)
    (s : ClientState) (r : InboundMsg) (h : s.isSetupComplete = true) :
    (∀ s' : ClientState, ((receive dec s' scMsg).1).isSetupComplete = true ∧
      (receive dec s' scMsg).2 = [Effect.emitted .setupCompleteEv]) ∧
    ((receive dec s r).1).isSetupComplete = true ∧
    (receive dec s scMsg).1 = s := by
  refine ⟨?_, ?_, ?_⟩
  · intro s'
    refine ⟨?_, by simp [receive, scMsg, strTruthy]⟩
    simp [receive_state_eq, scMsg, strTruthy]
  · rw [receive_state_eq]; split <;> simp [h]
  · rw [receive_state_eq]
    rcases s with ⟨c, w, ic, cp, ps, sc⟩
    simp_all [scMsg, strTruthy]

/-- C4 witness. -/
theorem c4_flag_latched_witness :
    (∀ s' : ClientState, ((receive decZero s' scMsg).1).isSetupComplete = true ∧
      (receive decZero s' scMsg).2 = [Effect.emitted .setupCompleteEv]) ∧
    ((receive decZero readyClient scMsg).1).isSetupComplete = true ∧
    (receive decZero readyClient scMsg).1 = readyClient :=
  c4_flag_latched_duplicates_reemit decZero readyClient scMsg (by decide)


/-- C5 theorem. -/
theorem c5_pre_handshake_sends_are_noops (s : ClientState)
    (h : s.isSetupComplete = false) (op : SendOp) (ops : List SendOp) :
    execSend s op = ([Effect.warn], none) ∧
    runSends s ops = List.replicate ops.length Effect.warn := by
  have hone : ∀ o : SendOp, execSend s o = ([Effect.warn], none) := by
    intro o
    cases o <;> simp [execSend, sendText, sendAudio, sendImage, sendToolResponse, h]
  refine ⟨hone op, ?_⟩
  induction ops with
  | nil => rfl
  | cons o os ih => simp [runSends, hone o, ih, List.replicate]

/-- C5 witness. -/
theorem c5_pre_handshake_witness :
    execSend (initClient "c") (.textOp "hi" true) = ([Effect.warn], none) ∧
    runSends (initClient "c") [.audioChunk "QUJD", .toolResult trNoOutput]
      = List.replicate ([SendOp.audioChunk "QUJD", .toolResult trNoOutput] : List SendOp).length Effect.warn :=
  c5_pre_handshake_sends_are_noops (initClient "c") (by decide) (.textOp "hi" true)
    [.audioChunk "QUJD", .toolResult trNoOutput]

/-- C6 counterexample. -/
theorem c6_validation_gated_by_handshake :
    (initClient "c").isSetupComplete = false ∧
    sendToolResponse (initClient "c") trNoOutput = ([Effect.warn], none) := by decide

/-- C6 amended theorem. -/
theorem c6_tool_result_validation (s : ClientState)
    (hsetup : s.isSetupComplete = true) (hws : s.ws = some .opened) :
    sendToolResponse s trNoOutput = ([], some SendError.invalidToolResponseNoOutput) ∧
    sendToolResponse s trErr
      = ([Effect.wsSend (.toolResponse [⟨.errResp "x", "t1"⟩])], none) ∧
    sendToolResponse s trOut
      = ([Effect.wsSend (.toolResponse [⟨.outResp "y", "t1"⟩])], none) ∧
    Envelope.toolResponse [⟨.errResp "x", "t1"⟩] ≠ Envelope.toolResponse [⟨.outResp "y", "t1"⟩] ∧
    (∀ s' : ClientState, s'.isSetupComplete = false →
      sendToolResponse s' trNoOutput = ([Effect.warn], none)) := by
  refine ⟨?_, ?_, ?_, by decide, fun s' h' => by simp [sendToolResponse, h']⟩ <;>
    simp [sendToolResponse, sendJSON, trNoOutput, trErr, trOut, strTruthy, hsetup, hws]

/-- C6 witness. -/
theorem c6_tool_result_validation_witness :
    sendToolResponse readyClient trNoOutput = ([], some SendError.invalidToolResponseNoOutput) ∧
    sendToolResponse readyClient trErr
      = ([Effect.wsSend (.toolResponse [⟨.errResp "x", "t1"⟩])], none) ∧
    sendToolResponse readyClient trOut
      = ([Effect.wsSend (.toolResponse [⟨.outResp "y", "t1"⟩])], none) ∧
    Envelope.toolResponse [⟨.errResp "x", "t1"⟩] ≠ Envelope.toolResponse [⟨.outResp "y", "t1"⟩] ∧
    (∀ s' : ClientState, s'.isSetupComplete = false →
      sendToolResponse s' trNoOutput = ([Effect.warn], none)) :=
  c6_tool_result_validation readyClient (by decide) (by decide)

/-- C7 counterexample. -/
theorem c7_code_1000_auth_reason_counterexample :
    (handleClose (initClient "c") 1000 "auth expired" true).2
      = [Effect.emitted .authFailedEv, Effect.emitted .errorEv] := by decide

/-- C7 amended theorem. -/
theorem c7_close_classification (s : ClientState) (code : Nat) (reason : String)
    (wc : Bool) (h : code = 4001 ∨ code = 4003 ∨ code = 1008) :
    (handleClose s code reason wc).2
      = [Effect.emitted .authFailedEv, Effect.emitted .errorEv] ∧
    (∀ r : String, reasonHasAuthPattern r = false →
      (handleClose s 1000 r wc).2 = [Effect.emitted (.disconnectedEv 1000 r wc)]) := by
  constructor
  · rcases h with h | h | h <;> subst h <;> simp [handleClose, authFailureClose]
  · intro r hr
    simp [handleClose, authFailureClose, hr]

/-- C7 witness. -/
theorem c7_close_classification_witness :
    (handleClose (initClient "c") 4001 "net" false).2
      = [Effect.emitted .authFailedEv, Effect.emitted .errorEv] ∧
    (∀ r : String, reasonHasAuthPattern r = false →
      (handleClose (initClient "c") 1000 r false).2
        = [Effect.emitted (.disconnectedEv 1000 r false)]) :=
  c7_close_classification (initClient "c") 4001 "net" false (Or.inl rfl)

/-- C8 counterexample. -/
theorem c8_disconnect_leaves_connect_pending :
    disconnect pendingAfterConnect = pendingAfterConnect ∧
    pendingAfterConnect.isConnecting = true ∧
    pendingAfterConnect.promiseStatus = PromiseStatus.pending := by decide

/-- C8 amended theorem. -/
theorem c8_disconnect_never_settles (s : ClientState) (h : s.ws = none) :
    disconnect s = s ∧
    (∀ s' : ClientState, (disconnect s').promiseStatus = s'.promiseStatus) := by
  constructor
  · simp [disconnect, h]
  · intro s'
    cases hws : s'.ws <;> simp [disconnect, hws]

/-- C8 witness. -/
theorem c8_disconnect_never_settles_witness :
    disconnect pendingAfterConnect = pendingAfterConnect ∧
    (∀ s' : ClientState, (disconnect s').promiseStatus = s'.promiseStatus) :=
  c8_disconnect_never_settles pendingAfterConnect (by decide)

/-- C9 counterexample. -/
theorem c9_throwing_listener_halts_dispatch :
    emit [("ev", throwingThenOk)] "ev" = ([0], some 0, true) ∧
    ¬ (1 ∈ (emit [("ev", throwingThenOk)] "ev").1) := by decide

/-- C9 amended theorem. -/
theorem c9_emit_order_and_exception (pre post : List Listener) (l : Listener)
    (hpre : ∀ x ∈ pre, x.outcome = LOutcome.ok) (hl : l.outcome = LOutcome.throws) :
    runListeners (pre ++ l :: post) = (pre.map Listener.id ++ [l.id], some l.id) ∧
    (∀ ls : List Listener, (∀ x ∈ ls, x.outcome = LOutcome.ok) →
      runListeners ls = (ls.map Listener.id, none)) ∧
    (∀ (m : List (String × List Listener)) (e : String) (x : Listener),
      listenersOf (onListener m e x) e = some ((listenersOf m e).getD [] ++ [x])) := by
  refine ⟨?_, ?_, ?_⟩
  · induction pre with
    | nil => simp [runListeners, hl]
    | cons p ps ih =>
      have hp : p.outcome = LOutcome.ok := hpre p (by simp)
      have ihs := ih (fun x hx => hpre x (by simp [hx]))
      simp [runListeners, hp, ihs]
  · intro ls hls
    induction ls with
    | nil => rfl
    | cons x xs ih =>
      have hx : x.outcome = LOutcome.ok := hls x (by simp)
      have ihs := ih (fun z hz => hls z (by simp [hz]))
      simp [runListeners, hx, ihs]
  · intro m e x
    induction m with
    | nil => simp [onListener, listenersOf]
    | cons kv rest ih =>
      rcases kv with ⟨k, ls⟩
      by_cases hk : k = e
      · subst hk; simp [onListener, listenersOf]
      · simp [onListener, listenersOf, hk, ih]

/-- C9 witness. -/
theorem c9_emit_order_witness :
    runListeners ([] ++ Listener.mk 5 LOutcome.throws :: [Listener.mk 6 LOutcome.ok])
      = (([] : List Listener).map Listener.id ++ [5], some 5) ∧
    (∀ ls : List Listener, (∀ x ∈ ls, x.outcome = LOutcome.ok) →
      runListeners ls = (ls.map Listener.id, none)) ∧
    (∀ (m : List (String × List Listener)) (e : String) (x : Listener),
      listenersOf (onListener m e x) e = some ((listenersOf m e).getD [] ++ [x])) :=
  c9_emit_order_and_exception [] [Listener.mk 6 LOutcome.ok] (Listener.mk 5 LOutcome.throws)
    (by simp) rfl

/-- C10 theorem. -/
theorem c10_setup_flag_persistence :
    (∀ s : ClientState, (disconnect s).isSetupComplete = s.isSetupComplete) ∧
    (∀ (s : ClientState) code reason wc,
      ((handleClose s code reason wc).1).isSetupComplete = s.isSetupComplete) ∧
    (∀ s : ClientState, ((handleOpen s).1).isSetupComplete = s.isSetupComplete) ∧
    (∀ s : ClientState, ((handleError s).1).isSetupComplete = s.isSetupComplete) ∧
    (∀ (s : ClientState) k u, ((connect s k u).1).isSetupComplete = s.isSetupComplete) ∧
    (∀ (dec : String → List Nat) (s : ClientState) (r : InboundMsg),
      ((receive dec s r).1).isSetupComplete
        = (s.isSetupComplete || (!(strTruthy r.toolCall) && r.setupComplete))) ∧
    (∀ s : ClientState, s.isSetupComplete = true → s.ws = none →
      ∀ b64 t eot j, sendAudio s b64 = ([], some SendError.transportAbsent) ∧
        sendImage s b64 = ([], some SendError.transportAbsent) ∧
        sendText s t eot = ([], some SendError.transportAbsent) ∧
        sendJSON s j = ([], some SendError.transportAbsent)) := by
  have hdis : ∀ s : ClientState, (disconnect s).isSetupComplete = s.isSetupComplete := by
    intro s; cases hws : s.ws <;> simp [disconnect, hws]
  have hset : ∀ (s : ClientState) st, (settle s st).isSetupComplete = s.isSetupComplete := by
    intro s st; by_cases hp : s.promiseStatus = PromiseStatus.pending <;> simp [settle, hp]
  refine ⟨hdis, ?_, ?_, ?_, ?_, ?_, ?_⟩
  · intro s code reason wc
    simp only [handleClose]
    split <;> simp [hset, hdis]
  · intro s
    simp [handleOpen, hset]
  · intro s
    simp [handleError, hset, hdis]
  · intro s k u
    simp only [connect]
    repeat' split
    all_goals rfl
  · intro dec s r
    rw [receive_state_eq]
    split <;> rename_i hc <;> simp_all
  · intro s h1 h2 b64 t eot j
    refine ⟨?_, ?_, ?_, ?_⟩ <;> simp [sendAudio, sendImage, sendText, sendJSON, h1, h2]

end Gemini
